import Mathlib

/-!
Verification of the RippleEffect pipeline: a shallow embedding, over the
reals, of the two GLSL shaders (`fluidUpdateShader`, `imageFragmentShader`)
and of the per-frame JavaScript driver logic (ping-pong buffer rotation,
pointer velocity sampling, uniform updates) of the repository, together with
theorems settling the specification claims.

Conventions: GLSL floats are modelled as real numbers; a texture is an
abstract sampling function from UV coordinates to its stored values
(scalar for the single-channel displacement buffers, an rgb triple for the
image texture).  `texture2D(t, uv).r` on a displacement buffer is `t uv`.
-/

namespace RippleEffect

/-- GLSL `mix(x, y, a) = x*(1-a) + y*a` (linear blend). -/
noncomputable def mix (x y a : ℝ) : ℝ := x * (1 - a) + y * a

/-- GLSL `clamp(x, lo, hi) = min(max(x, lo), hi)`. -/
noncomputable def clampF (x lo hi : ℝ) : ℝ := min (max x lo) hi

/-- GLSL `smoothstep(e0, e1, x)`: cubic Hermite step
`t = clamp((x-e0)/(e1-e0), 0, 1); t*t*(3-2t)`. -/
noncomputable def smoothstep (e0 e1 x : ℝ) : ℝ :=
  let t := clampF ((x - e0) / (e1 - e0)) 0 1
  t * t * (3 - 2 * t)

/-- GLSL `length` of a vec2. -/
noncomputable def length2 (v : ℝ × ℝ) : ℝ := Real.sqrt (v.1 ^ 2 + v.2 ^ 2)

/-- GLSL `distance` between two vec2 points. -/
noncomputable def distance2 (a b : ℝ × ℝ) : ℝ := length2 (a.1 - b.1, a.2 - b.2)

/-- GLSL `length` of a vec3 (modelled as a right-nested triple). -/
noncomputable def length3 (v : ℝ × ℝ × ℝ) : ℝ :=
  Real.sqrt (v.1 ^ 2 + v.2.1 ^ 2 + v.2.2 ^ 2)

/-- GLSL `normalize` of a vec3. -/
noncomputable def normalize3 (v : ℝ × ℝ × ℝ) : ℝ × ℝ × ℝ :=
  (v.1 / length3 v, v.2.1 / length3 v, v.2.2 / length3 v)

/-- GLSL `dot` of two vec3 values. -/
noncomputable def dot3 (a b : ℝ × ℝ × ℝ) : ℝ :=
  a.1 * b.1 + a.2.1 * b.2.1 + a.2.2 * b.2.2

/-- Uniform block of `fluidUpdateShader`: the simulation resolution and the
wave / ripple uniforms set each frame by `useFrame`. -/
structure FluidParams where
  resolution : ℝ × ℝ
  viscosity : ℝ
  decay : ℝ
  mouse : ℝ × ℝ
  prevMouse : ℝ × ℝ
  radius : ℝ
  intensity : ℝ
  mouseVelocity : ℝ

/-- Ripple injection term of `fluidUpdateShader` (the body of the
`uMouseVelocity > 0.0001` branch, before it is added to `wave`): a soft
circular falloff at the mouse, maximised with squared falloffs at 8 points
interpolated along the previous-to-current mouse segment, scaled by
`uIntensity * min(uMouseVelocity * 10, 1)`. -/
noncomputable def rippleAt (p : FluidParams) (vUv : ℝ × ℝ) : ℝ :=
  let mousePos := p.mouse
  let dist := distance2 vUv mousePos
  let ripple0 := (smoothstep p.radius 0 dist) ^ 2
  let prevMousePos := p.prevMouse
  let ripple :=
    (List.range 8).foldl
      (fun r i =>
        let t := (i : ℝ) / 8
        let trailPos := (mix prevMousePos.1 mousePos.1 t, mix prevMousePos.2 mousePos.2 t)
        let d := distance2 vUv trailPos
        let trailRipple := smoothstep (p.radius * 0.7) 0 d
        max r (trailRipple ^ 2))
      ripple0
  ripple * p.intensity * min (p.mouseVelocity * 10) 1

/-- Per-fragment computation of `fluidUpdateShader`: reads `uPrevState` and
`uCurrentState` (scalar fields sampled at `vUv` and at the four
axis-aligned texel neighbours), applies the damped wave update, and adds
the ripple injection when the mouse velocity exceeds the threshold.  The
returned scalar is the value written to the red channel of the bound
`next` render target. -/
noncomputable def fluidUpdateShader (p : FluidParams)
    (uPrevState uCurrentState : ℝ × ℝ → ℝ) (vUv : ℝ × ℝ) : ℝ :=
  let texel : ℝ × ℝ := (1 / p.resolution.1, 1 / p.resolution.2)
  let current := uCurrentState vUv
  let prev := uPrevState vUv
  let left := uCurrentState (vUv.1 - texel.1, vUv.2)
  let right := uCurrentState (vUv.1 + texel.1, vUv.2)
  let top := uCurrentState (vUv.1, vUv.2 + texel.2)
  let bottom := uCurrentState (vUv.1, vUv.2 - texel.2)
  let neighbors := (left + right + top + bottom) * 0.25
  let wave0 := neighbors * 2 - prev
  let wave1 := mix current wave0 p.viscosity
  let wave2 := wave1 * p.decay
  if p.mouseVelocity > 0.0001 then wave2 + rippleAt p vUv else wave2

/-- Simulation state over the frames: the `(prev, current)` pair of scalar
fields read by the next step.  `simFrames p n` advances `n` frames exactly
as `useFrame` does with fixed uniforms: each frame renders
`fluidUpdateShader` into the `next` buffer, which then becomes `current`,
while the old `current` becomes `prev`. -/
noncomputable def simFrames (p : FluidParams) :
    ℕ → ((ℝ × ℝ → ℝ) × (ℝ × ℝ → ℝ)) → ((ℝ × ℝ → ℝ) × (ℝ × ℝ → ℝ))
  | 0, state => state
  | n + 1, state =>
      simFrames p n (state.2, fun vUv => fluidUpdateShader p state.1 state.2 vUv)

/-- Ping-pong role of the buffer read as the two-frames-ago state:
`prev = (c + 2) % 3` (from `useFrame`). -/
def prevIndex (c : ℕ) : ℕ := (c + 2) % 3

/-- Ping-pong role of the buffer read as the last-frame state: `current = c`. -/
def currentIndex (c : ℕ) : ℕ := c

/-- Ping-pong role of the buffer written this frame: `next = (c + 1) % 3`. -/
def nextIndex (c : ℕ) : ℕ := (c + 1) % 3

/-- End-of-frame advance of the rotating index:
`pingPongRef.current = next`. -/
def advancePingPong (c : ℕ) : ℕ := nextIndex c

/-- Pointer state tracked by the component: `mouseRef`, `prevMouseRef` and
`isPointerInsideRef`. -/
structure PointerState where
  mouse : ℝ × ℝ
  prevMouse : ℝ × ℝ
  isPointerInside : Bool

/-- Per-frame velocity sample from `useFrame`: the Euclidean distance
between the stored current and previous mouse positions, forced to 0 when
the pointer is not inside the canvas. -/
noncomputable def sampleVelocity (s : PointerState) : ℝ :=
  let dx := s.mouse.1 - s.prevMouse.1
  let dy := s.mouse.2 - s.prevMouse.2
  let rawVelocity := Real.sqrt (dx * dx + dy * dy)
  if s.isPointerInside then rawVelocity else 0

/-- Caller-supplied `settings` object consumed every frame by `useFrame`. -/
structure Settings where
  viscosity : ℝ
  decay : ℝ
  scale : ℝ
  intensity : ℝ
  distortionStrength : ℝ
  aberration : ℝ
  lightIntensity : ℝ
  specularPower : ℝ

/-- Per-frame update of the fluid-simulation uniforms (`useFrame`,
"Update all uniforms"): each settings field is assigned to its uniform
as-is, alongside the current pointer sample; the resolution is the fixed
`RESOLUTION = 512` pair. -/
noncomputable def updateFluidUniforms (settings : Settings)
    (mouse prevMouse : ℝ × ℝ) (velocity : ℝ) : FluidParams :=
  { resolution := (512, 512)
    viscosity := settings.viscosity
    decay := settings.decay
    mouse := mouse
    prevMouse := prevMouse
    radius := settings.scale
    intensity := settings.intensity
    mouseVelocity := velocity }

/-- Uniform block of `imageFragmentShader`. -/
structure ImageParams where
  distortionStrength : ℝ
  aberration : ℝ
  lightIntensity : ℝ
  specularPower : ℝ
  resolution : ℝ × ℝ
  imageAspect : ℝ
  planeAspect : ℝ

/-- Per-frame update of the image-material uniforms (`useFrame`,
"Update image materials"): each settings field is assigned to its uniform
as-is. -/
noncomputable def updateImageUniforms (settings : Settings)
    (resolution : ℝ × ℝ) (imageAspect planeAspect : ℝ) : ImageParams :=
  { distortionStrength := settings.distortionStrength
    aberration := settings.aberration
    lightIntensity := settings.lightIntensity
    specularPower := settings.specularPower
    resolution := resolution
    imageAspect := imageAspect
    planeAspect := planeAspect }

/-- Cover-fit UV remapping from `imageFragmentShader`: maintains aspect
ratio while filling the plane. -/
noncomputable def coverUv (uv : ℝ × ℝ) (imageAspect planeAspect : ℝ) : ℝ × ℝ :=
  let ratio : ℝ × ℝ :=
    (min (planeAspect / imageAspect) 1, min (imageAspect / planeAspect) 1)
  (uv.1 * ratio.1 + (1 - ratio.1) * 0.5, uv.2 * ratio.2 + (1 - ratio.2) * 0.5)

/-- Central-difference normal of the displacement field
(`calculateNormal` in `imageFragmentShader`). -/
noncomputable def calculateNormal (uDisplacement : ℝ × ℝ → ℝ)
    (resolution : ℝ × ℝ) (uv : ℝ × ℝ) (strength : ℝ) : ℝ × ℝ × ℝ :=
  let texel : ℝ × ℝ := (1 / resolution.1, 1 / resolution.2)
  let left := uDisplacement (uv.1 - texel.1, uv.2)
  let right := uDisplacement (uv.1 + texel.1, uv.2)
  let top := uDisplacement (uv.1, uv.2 + texel.2)
  let bottom := uDisplacement (uv.1, uv.2 - texel.2)
  normalize3 ((left - right) * strength, (bottom - top) * strength, 1)

/-- Intermediate values of one `imageFragmentShader` invocation, named as
in the shader source.  `color` is the final `gl_FragColor.rgb`. -/
structure FragData where
  coveredUv : ℝ × ℝ
  displacement : ℝ
  normal : ℝ × ℝ × ℝ
  normalDeviation : ℝ
  distortedUv : ℝ × ℝ
  aberrationAmount : ℝ
  colorR : ℝ × ℝ × ℝ
  colorG : ℝ × ℝ × ℝ
  colorB : ℝ × ℝ × ℝ
  rippleMask : ℝ
  specular : ℝ
  fresnel : ℝ
  color : ℝ × ℝ × ℝ

/-- Per-fragment computation of `imageFragmentShader`, following `main`
line by line.  `uTexture` is an abstract rgb sampling function and
`uDisplacement` an abstract scalar sampling function.  GLSL `pow` with the
uniform exponent `uSpecularPower` is real exponentiation; `pow(-, 2.0)`
is squaring. -/
noncomputable def imageFragmentData (uTexture : ℝ × ℝ → ℝ × ℝ × ℝ)
    (uDisplacement : ℝ × ℝ → ℝ) (p : ImageParams)
    (vUv vScreenUv : ℝ × ℝ) : FragData :=
  let coveredUv := coverUv vUv p.imageAspect p.planeAspect
  let displacement := uDisplacement vScreenUv
  let normal := calculateNormal uDisplacement p.resolution vScreenUv 50
  let normalDeviation := length2 (normal.1, normal.2.1)
  let refraction := (normal.1 * p.distortionStrength, normal.2.1 * p.distortionStrength)
  let distortedUv0 := (coveredUv.1 + refraction.1, coveredUv.2 + refraction.2)
  let distortedUv := (clampF distortedUv0.1 0.001 0.999, clampF distortedUv0.2 0.001 0.999)
  let aberrationAmount := p.aberration * (|normal.1| + |normal.2.1|)
  let colorR := uTexture (distortedUv.1 + aberrationAmount, distortedUv.2)
  let colorG := uTexture distortedUv
  let colorB := uTexture (distortedUv.1 - aberrationAmount, distortedUv.2)
  let rippleMask := smoothstep 0.01 0.1 normalDeviation
  let lightDir := normalize3 (0.5, 0.5, 1)
  let viewDir : ℝ × ℝ × ℝ := (0, 0, 1)
  let halfDir := normalize3 (lightDir.1 + viewDir.1, lightDir.2.1 + viewDir.2.1, lightDir.2.2 + viewDir.2.2)
  let specular := (max (dot3 normal halfDir) 0) ^ p.specularPower * (p.lightIntensity * rippleMask)
  let fresnel := (1 - max (dot3 normal viewDir) 0) ^ 2
  let color :=
    (colorR.1 + specular + fresnel * p.lightIntensity * 0.1 * rippleMask,
     colorG.2.1 + specular + fresnel * p.lightIntensity * 0.1 * rippleMask,
     colorB.2.2 + specular + fresnel * p.lightIntensity * 0.1 * rippleMask)
  { coveredUv := coveredUv
    displacement := displacement
    normal := normal
    normalDeviation := normalDeviation
    distortedUv := distortedUv
    aberrationAmount := aberrationAmount
    colorR := colorR
    colorG := colorG
    colorB := colorB
    rippleMask := rippleMask
    specular := specular
    fresnel := fresnel
    color := color }

/-- Final fragment colour of `imageFragmentShader` (`gl_FragColor.rgb`). -/
noncomputable def imageFragmentShader (uTexture : ℝ × ℝ → ℝ × ℝ × ℝ)
    (uDisplacement : ℝ × ℝ → ℝ) (p : ImageParams)
    (vUv vScreenUv : ℝ × ℝ) : ℝ × ℝ × ℝ :=
  (imageFragmentData uTexture uDisplacement p vUv vScreenUv).color

/-! Helper lemmas shared by the claim theorems. -/

/-- Lower bound of GLSL clamp when the bounds are ordered. -/
theorem le_clampF (x lo hi : ℝ) (h : lo ≤ hi) : lo ≤ clampF x lo hi :=
  le_min (le_max_right x lo) h

/-- Upper bound of GLSL clamp. -/
theorem clampF_le (x lo hi : ℝ) : clampF x lo hi ≤ hi :=
  min_le_right _ _

/-- Clamp is the identity on values already inside the bounds. -/
theorem clampF_eq_self (x lo hi : ℝ) (h1 : lo ≤ x) (h2 : x ≤ hi) :
    clampF x lo hi = x := by
  unfold clampF
  rw [max_eq_left h1, min_eq_left h2]

/-- The fluid step only reads its two field arguments pointwise, so
pointwise-equal fields give equal outputs. -/
theorem fluidUpdateShader_congr {p : FluidParams} {f g fa ga : ℝ × ℝ → ℝ}
    (hf : ∀ q, f q = fa q) (hg : ∀ q, g q = ga q) (vUv : ℝ × ℝ) :
    fluidUpdateShader p f g vUv = fluidUpdateShader p fa ga vUv := by
  simp only [fluidUpdateShader, hf, hg]

/-- Value of the fluid step on spatially constant fields, with the ripple
branch disabled by a below-threshold velocity. -/
theorem fluidUpdateShader_const (p : FluidParams) (a b : ℝ) (vUv : ℝ × ℝ)
    (hv : p.mouseVelocity ≤ 0.0001) :
    fluidUpdateShader p (fun _ => a) (fun _ => b) vUv =
      mix b (2 * b - a) p.viscosity * p.decay := by
  simp only [fluidUpdateShader, mix]
  rw [if_neg (not_lt.mpr hv)]
  ring

/-- The frame iteration preserves pointwise equality of states. -/
theorem simFrames_congr (p : FluidParams) :
    ∀ (n : ℕ) (f g fa ga : ℝ × ℝ → ℝ), (∀ q, f q = fa q) → (∀ q, g q = ga q) →
      ∀ vUv, (simFrames p n (f, g)).2 vUv = (simFrames p n (fa, ga)).2 vUv
  | 0, _, _, _, _, _, hg, vUv => hg vUv
  | n + 1, f, g, fa, ga, hf, hg, vUv => by
      show (simFrames p n (g, fun q => fluidUpdateShader p f g q)).2 vUv
        = (simFrames p n (ga, fun q => fluidUpdateShader p fa ga q)).2 vUv
      exact simFrames_congr p n g _ ga _ hg
        (fun q => fluidUpdateShader_congr hf hg q) vUv

/-- Unfolding one frame of the iteration on spatially constant fields. -/
theorem simFrames_const_succ (p : FluidParams) (hv : p.mouseVelocity ≤ 0.0001)
    (a b : ℝ) (n : ℕ) (vUv : ℝ × ℝ) :
    (simFrames p (n + 1) (fun _ => a, fun _ => b)).2 vUv =
      (simFrames p n (fun _ => b, fun _ => mix b (2 * b - a) p.viscosity * p.decay)).2 vUv := by
  show (simFrames p n ((fun _ => b),
      fun q => fluidUpdateShader p (fun _ => a) (fun _ => b) q)).2 vUv = _
  exact simFrames_congr p n _ _ _ _ (fun _ => rfl)
    (fun q => fluidUpdateShader_const p a b q hv) vUv

/-- With zero viscosity the constant field is multiplied by `decay` once
per frame. -/
theorem simFrames_uniform_decay (p : FluidParams)
    (hv : p.mouseVelocity ≤ 0.0001) (ht : p.viscosity = 0) :
    ∀ (n : ℕ) (a b : ℝ) (vUv : ℝ × ℝ),
      (simFrames p n (fun _ => a, fun _ => b)).2 vUv = b * p.decay ^ n
  | 0, _, b, _ => by simp [simFrames]
  | n + 1, a, b, vUv => by
      rw [simFrames_const_succ p hv a b n vUv,
        simFrames_uniform_decay p hv ht n b _ vUv, ht]
      simp only [mix]
      ring

/-! Claim theorems. -/

/-- C1: for every grid cell, the simulation step computes the value written
to the next buffer as the damped wave update
`decay * mix(current, 2 * (0.25*(left+right+top+bottom)) - prev, viscosity)`,
to which only the (velocity-gated) ripple injection term is added. -/
theorem c1_damped_wave_formula (p : FluidParams)
    (uPrevState uCurrentState : ℝ × ℝ → ℝ) (vUv : ℝ × ℝ) :
    fluidUpdateShader p uPrevState uCurrentState vUv =
      mix (uCurrentState vUv)
        (2 * (0.25 * (uCurrentState (vUv.1 - 1 / p.resolution.1, vUv.2)
            + uCurrentState (vUv.1 + 1 / p.resolution.1, vUv.2)
            + uCurrentState (vUv.1, vUv.2 + 1 / p.resolution.2)
            + uCurrentState (vUv.1, vUv.2 - 1 / p.resolution.2)))
          - uPrevState vUv)
        p.viscosity * p.decay
      + (if p.mouseVelocity > 0.0001 then rippleAt p vUv else 0) := by
  simp only [fluidUpdateShader, mix]
  split <;> ring

/-- C2: with roles `prev = (c+2) % 3`, `current = c`, `next = (c+1) % 3`
and the index advancing to `next` after each step, for every starting index
`c < 3`: after one step the buffer holding the current role is the buffer
that held the next role before the step, and after exactly three steps the
whole role-to-buffer assignment returns to its original mapping. -/
theorem c2_pingpong_cycle (c : ℕ) (h : c < 3) :
    currentIndex (advancePingPong c) = nextIndex c ∧
    advancePingPong (advancePingPong (advancePingPong c)) = c ∧
    prevIndex (advancePingPong (advancePingPong (advancePingPong c))) = prevIndex c ∧
    currentIndex (advancePingPong (advancePingPong (advancePingPong c))) = currentIndex c ∧
    nextIndex (advancePingPong (advancePingPong (advancePingPong c))) = nextIndex c := by
  interval_cases c <;> simp [currentIndex, prevIndex, nextIndex, advancePingPong]

/-- C2 witness: the cycle properties evaluated at the concrete starting
index 2. -/
theorem c2_pingpong_cycle_witness :
    currentIndex (advancePingPong 2) = nextIndex 2 ∧
    advancePingPong (advancePingPong (advancePingPong 2)) = 2 ∧
    prevIndex (advancePingPong (advancePingPong (advancePingPong 2))) = prevIndex 2 ∧
    currentIndex (advancePingPong (advancePingPong (advancePingPong 2))) = currentIndex 2 ∧
    nextIndex (advancePingPong (advancePingPong (advancePingPong 2))) = nextIndex 2 :=
  c2_pingpong_cycle 2 (by decide)

/-- C3: when the sampled velocity does not exceed the 0.0001 threshold the
step adds no ripple term: every cell receives exactly the pure damped-wave
update. -/
theorem c3_no_injection (p : FluidParams)
    (uPrevState uCurrentState : ℝ × ℝ → ℝ) (vUv : ℝ × ℝ)
    (hv : p.mouseVelocity ≤ 0.0001) :
    fluidUpdateShader p uPrevState uCurrentState vUv =
      mix (uCurrentState vUv)
        (2 * (0.25 * (uCurrentState (vUv.1 - 1 / p.resolution.1, vUv.2)
            + uCurrentState (vUv.1 + 1 / p.resolution.1, vUv.2)
            + uCurrentState (vUv.1, vUv.2 + 1 / p.resolution.2)
            + uCurrentState (vUv.1, vUv.2 - 1 / p.resolution.2)))
          - uPrevState vUv)
        p.viscosity * p.decay := by
  simp only [fluidUpdateShader, mix]
  rw [if_neg (not_lt.mpr hv)]
  ring

/-- C3 witness: the no-injection equation at velocity 0, concrete uniform
values and concrete constant fields. -/
theorem c3_no_injection_witness :
    fluidUpdateShader ⟨(512, 512), 1/2, 49/50, (1/2, 1/2), (1/2, 1/2), 1/10, 3/50, 0⟩
        (fun _ => 1) (fun _ => 2) (1/2, 1/2) =
      mix 2 (2 * (0.25 * (2 + 2 + 2 + 2)) - 1) (1/2) * (49/50) := by
  have h := c3_no_injection
    ⟨(512, 512), 1/2, 49/50, (1/2, 1/2), (1/2, 1/2), 1/10, 3/50, 0⟩
    (fun _ => 1) (fun _ => 2) (1/2, 1/2) (by norm_num)
  simpa using h

/-- C8: whenever the pointer-inside flag is false, the velocity sampled for
the frame is exactly 0, whatever the stored current and previous pointer
positions are. -/
theorem c8_outside_velocity_zero (mouse prevMouse : ℝ × ℝ) :
    sampleVelocity { mouse := mouse, prevMouse := prevMouse, isPointerInside := false } = 0 := by
  simp [sampleVelocity]

/-- C9: the cover-fit remapping is the identity when the image and plane
aspect ratios agree: `coverUv uv a a = uv` for every `a > 0`. -/
theorem c9_coverUv_identity (uv : ℝ × ℝ) (a : ℝ) (ha : 0 < a) :
    coverUv uv a a = uv := by
  simp only [coverUv, div_self (ne_of_gt ha), min_self, min_eq_right le_rfl]
  norm_num

/-- C9 witness: the identity evaluated at `uv = (1/3, 3/4)` and aspect 2. -/
theorem c9_coverUv_identity_witness :
    coverUv ((1 : ℝ)/3, (3 : ℝ)/4) 2 2 = ((1 : ℝ)/3, (3 : ℝ)/4) :=
  c9_coverUv_identity ((1 : ℝ)/3, (3 : ℝ)/4) 2 (by norm_num)

/-- Zero is a fixed point of one step when no injection occurs. -/
theorem fluidUpdateShader_zero (p : FluidParams) (hv : p.mouseVelocity ≤ 0.0001)
    (vUv : ℝ × ℝ) :
    fluidUpdateShader p (fun _ => 0) (fun _ => 0) vUv = 0 := by
  rw [fluidUpdateShader_const p 0 0 vUv hv]
  simp [mix]

/-- Pointwise-zero states stay pointwise zero under the frame iteration. -/
theorem simFrames_zero_state (p : FluidParams) (hv : p.mouseVelocity ≤ 0.0001) :
    ∀ (n : ℕ) (f g : ℝ × ℝ → ℝ), (∀ q, f q = 0) → (∀ q, g q = 0) →
      ∀ vUv, (simFrames p n (f, g)).1 vUv = 0 ∧ (simFrames p n (f, g)).2 vUv = 0
  | 0, _, _, hf, hg, vUv => ⟨hf vUv, hg vUv⟩
  | n + 1, f, g, hf, hg, vUv => by
      have hstep : ∀ q, fluidUpdateShader p f g q = 0 := fun q => by
        rw [fluidUpdateShader_congr hf hg q, fluidUpdateShader_zero p hv q]
      exact simFrames_zero_state p hv n g _ hg hstep vUv

/-- C10: the all-zero field is a fixed point of the step without injection,
and from the cleared initial buffers the field stays identically zero over
any number of frames with a below-threshold velocity, for every viscosity
and decay value. -/
theorem c10_zero_fixed_point (p : FluidParams) (hv : p.mouseVelocity ≤ 0.0001) :
    (∀ vUv, fluidUpdateShader p (fun _ => 0) (fun _ => 0) vUv = 0) ∧
    (∀ (n : ℕ) (vUv : ℝ × ℝ),
      (simFrames p n (fun _ => 0, fun _ => 0)).1 vUv = 0 ∧
      (simFrames p n (fun _ => 0, fun _ => 0)).2 vUv = 0) := by
  refine ⟨fun vUv => fluidUpdateShader_zero p hv vUv, fun n vUv => ?_⟩
  exact simFrames_zero_state p hv n _ _ (fun _ => rfl) (fun _ => rfl) vUv

/-- C10 witness: the field value after 6 frames at a concrete cell, with
concrete uniforms (velocity 0). -/
theorem c10_zero_fixed_point_witness :
    (simFrames ⟨(512, 512), 3/4, 99/100, (1/2, 1/2), (1/2, 1/2), 1/10, 3/50, 0⟩ 6
        (fun _ => 0, fun _ => 0)).2 (1/3, 2/3) = 0 :=
  ((c10_zero_fixed_point
    ⟨(512, 512), 3/4, 99/100, (1/2, 1/2), (1/2, 1/2), 1/10, 3/50, 0⟩
    (by norm_num)).2 6 (1/3, 2/3)).2

/-- C4 counterexample: with viscosity 1 and decay 2/5 (inside the claimed
parameter ranges), starting from the uniform field 1, the uniform value at
frame 4 is strictly larger than at frame 3, so repeated stepping does not
strictly decrease the value toward 0. -/
theorem c4_counterexample :
    (simFrames ⟨(512, 512), 1, 2/5, (1/2, 1/2), (1/2, 1/2), 1/10, 3/50, 0⟩ 3
        (fun _ => 1, fun _ => 1)).2 (1/2, 1/2) <
      (simFrames ⟨(512, 512), 1, 2/5, (1/2, 1/2), (1/2, 1/2), 1/10, 3/50, 0⟩ 4
        (fun _ => 1, fun _ => 1)).2 (1/2, 1/2) := by
  have hv : (⟨(512, 512), 1, 2/5, (1/2, 1/2), (1/2, 1/2), 1/10, 3/50, 0⟩ :
      FluidParams).mouseVelocity ≤ 0.0001 := by norm_num
  have h3 : (simFrames ⟨(512, 512), 1, 2/5, (1/2, 1/2), (1/2, 1/2), 1/10, 3/50, 0⟩ 3
      (fun _ => 1, fun _ => 1)).2 (1/2, 1/2) = -28/125 := by
    rw [simFrames_const_succ _ hv 1 1 2 (1/2, 1/2)]
    norm_num [mix]
    rw [simFrames_const_succ _ hv 1 (2/5) 1 (1/2, 1/2)]
    norm_num [mix]
    rw [simFrames_const_succ _ hv (2/5) (-(2/25)) 0 (1/2, 1/2)]
    norm_num [mix, simFrames]
  have h4 : (simFrames ⟨(512, 512), 1, 2/5, (1/2, 1/2), (1/2, 1/2), 1/10, 3/50, 0⟩ 4
      (fun _ => 1, fun _ => 1)).2 (1/2, 1/2) = -92/625 := by
    rw [simFrames_const_succ _ hv 1 1 3 (1/2, 1/2)]
    norm_num [mix]
    rw [simFrames_const_succ _ hv 1 (2/5) 2 (1/2, 1/2)]
    norm_num [mix]
    rw [simFrames_const_succ _ hv (2/5) (-(2/25)) 1 (1/2, 1/2)]
    norm_num [mix]
    rw [simFrames_const_succ _ hv (-(2/25)) (-(28/125)) 0 (1/2, 1/2)]
    norm_num [mix, simFrames]
  rw [h3, h4]
  norm_num

/-- C4 (amended): from uniform fields `v > 0` with no injection, one step
makes the field uniformly `v * decay` for every viscosity in `[0,1]` and
decay in `(0,1)`; with viscosity 0 the uniform value after `n` frames is
`v * decay ^ n`, which strictly decreases and tends to 0.  (For positive
viscosity the value need not decrease monotonically.) -/
theorem c4_uniform_energy_decay (p : FluidParams) (v : ℝ) (hp : 0 < v)
    (hvisc0 : 0 ≤ p.viscosity) (hvisc1 : p.viscosity ≤ 1)
    (hd0 : 0 < p.decay) (hd1 : p.decay < 1) (hv : p.mouseVelocity ≤ 0.0001) :
    (∀ vUv, fluidUpdateShader p (fun _ => v) (fun _ => v) vUv = v * p.decay) ∧
    (p.viscosity = 0 →
      (∀ (n : ℕ) (vUv : ℝ × ℝ),
        (simFrames p n (fun _ => v, fun _ => v)).2 vUv = v * p.decay ^ n) ∧
      (∀ (n : ℕ) (vUv : ℝ × ℝ),
        (simFrames p (n + 1) (fun _ => v, fun _ => v)).2 vUv <
          (simFrames p n (fun _ => v, fun _ => v)).2 vUv) ∧
      (∀ vUv : ℝ × ℝ,
        Filter.Tendsto (fun n => (simFrames p n (fun _ => v, fun _ => v)).2 vUv)
          Filter.atTop (nhds 0))) := by
  constructor
  · intro vUv
    rw [fluidUpdateShader_const p v v vUv hv]
    simp only [mix]
    ring
  · intro ht
    have hval : ∀ (n : ℕ) (vUv : ℝ × ℝ),
        (simFrames p n (fun _ => v, fun _ => v)).2 vUv = v * p.decay ^ n :=
      fun n vUv => simFrames_uniform_decay p hv ht n v v vUv
    refine ⟨hval, fun n vUv => ?_, fun vUv => ?_⟩
    · rw [hval n vUv, hval (n + 1) vUv]
      exact mul_lt_mul_of_pos_left
        (pow_lt_pow_right_of_lt_one₀ hd0 hd1 (Nat.lt_succ_self n)) hp
    · have hbase : Filter.Tendsto (fun n : ℕ => v * p.decay ^ n)
          Filter.atTop (nhds 0) := by
        have h0 := (tendsto_pow_atTop_nhds_zero_of_lt_one hd0.le hd1).const_mul v
        rwa [mul_zero] at h0
      exact hbase.congr (fun n => (hval n vUv).symm)

/-- C4 witness: the amended theorem applied at viscosity 0, decay 1/2,
`v = 1`, instantiating both the one-step value and the limit. -/
theorem c4_uniform_energy_decay_witness :
    fluidUpdateShader ⟨(512, 512), 0, 1/2, (1/2, 1/2), (1/2, 1/2), 1/10, 3/50, 0⟩
        (fun _ => 1) (fun _ => 1) (1/4, 1/4) = 1 * (1/2) ∧
    Filter.Tendsto
      (fun n => (simFrames ⟨(512, 512), 0, 1/2, (1/2, 1/2), (1/2, 1/2), 1/10, 3/50, 0⟩ n
        (fun _ => 1, fun _ => 1)).2 (1/4, 1/4)) Filter.atTop (nhds 0) := by
  have h := c4_uniform_energy_decay
    ⟨(512, 512), 0, 1/2, (1/2, 1/2), (1/2, 1/2), 1/10, 3/50, 0⟩ 1
    (by norm_num) (by norm_num) (by norm_num) (by norm_num) (by norm_num) (by norm_num)
  exact ⟨by simpa using h.1 (1/4, 1/4), (h.2 rfl).2.2 (1/4, 1/4)⟩

/-- C6 counterexample: `useFrame` assigns the settings to the per-frame
uniforms unmodified, so a viscosity of 2 (outside `[0,1]`) and a negative
radius reach the simulation uniforms as-is instead of being clamped into
their domains. -/
theorem c6_counterexample :
    (updateFluidUniforms ⟨2, 49/50, -(1/10), 3/50, 1/10, 1/2, 1/2, 8⟩
        (1/2, 1/2) (1/2, 1/2) 0).viscosity = 2 ∧
    ¬ ((updateFluidUniforms ⟨2, 49/50, -(1/10), 3/50, 1/10, 1/2, 1/2, 8⟩
        (1/2, 1/2) (1/2, 1/2) 0).viscosity ≤ 1) ∧
    (updateFluidUniforms ⟨2, 49/50, -(1/10), 3/50, 1/10, 1/2, 1/2, 8⟩
        (1/2, 1/2) (1/2, 1/2) 0).radius = -(1/10) ∧
    ¬ (0 ≤ (updateFluidUniforms ⟨2, 49/50, -(1/10), 3/50, 1/10, 1/2, 1/2, 8⟩
        (1/2, 1/2) (1/2, 1/2) 0).radius) := by
  refine ⟨rfl, by norm_num [updateFluidUniforms], rfl, by norm_num [updateFluidUniforms]⟩

/-- C6 (amended): the per-frame uniform updates pass every configuration
parameter through unmodified — no clamping into the documented domains and
no error; out-of-range values are used as-is by the simulation and shading
uniforms. -/
theorem c6_uniforms_passthrough (settings : Settings)
    (mouse prevMouse : ℝ × ℝ) (velocity : ℝ) (resolution : ℝ × ℝ)
    (imageAspect planeAspect : ℝ) :
    (updateFluidUniforms settings mouse prevMouse velocity).viscosity = settings.viscosity ∧
    (updateFluidUniforms settings mouse prevMouse velocity).decay = settings.decay ∧
    (updateFluidUniforms settings mouse prevMouse velocity).radius = settings.scale ∧
    (updateFluidUniforms settings mouse prevMouse velocity).intensity = settings.intensity ∧
    (updateImageUniforms settings resolution imageAspect planeAspect).distortionStrength
      = settings.distortionStrength ∧
    (updateImageUniforms settings resolution imageAspect planeAspect).aberration
      = settings.aberration ∧
    (updateImageUniforms settings resolution imageAspect planeAspect).lightIntensity
      = settings.lightIntensity ∧
    (updateImageUniforms settings resolution imageAspect planeAspect).specularPower
      = settings.specularPower :=
  ⟨rfl, rfl, rfl, rfl, rfl, rfl, rfl, rfl⟩

/-- A vec3 that already has unit z and zero xy normalizes to itself. -/
theorem normalize3_unit_z : normalize3 (0, 0, 1) = (0, 0, 1) := by
  norm_num [normalize3, length3, Real.sqrt_one]

/-- On a flat (constant) displacement field the central-difference normal
is exactly `(0, 0, 1)`. -/
theorem calculateNormal_const (c : ℝ) (resolution uv : ℝ × ℝ) (strength : ℝ)
    {disp : ℝ × ℝ → ℝ} (h : ∀ q, disp q = c) :
    calculateNormal disp resolution uv strength = (0, 0, 1) := by
  simp only [calculateNormal, h, sub_self, zero_mul]
  exact normalize3_unit_z

/-- Evaluation of the lighting mask at zero normal deviation (edges stated
in the normalized literal form produced by `norm_num`). -/
theorem smoothstep_at_zero : smoothstep (1/100) (1/10) 0 = 0 := by
  unfold smoothstep clampF
  rw [max_eq_right (by norm_num : ((0 : ℝ) - 1/100) / (1/10 - 1/100) ≤ 0),
    min_eq_left (by norm_num : (0 : ℝ) ≤ 1)]
  ring

/-- C5 (amended): the shader clamps `distortedUv` into `[0.001, 0.999]`
componentwise, so the green channel sample coordinate always lies in that
range; the red and blue coordinates are offset by the aberration amount
after the clamp and are not themselves clamped. -/
theorem c5_distortedUv_clamped (uTexture : ℝ × ℝ → ℝ × ℝ × ℝ)
    (uDisplacement : ℝ × ℝ → ℝ) (p : ImageParams) (vUv vScreenUv : ℝ × ℝ) :
    0.001 ≤ (imageFragmentData uTexture uDisplacement p vUv vScreenUv).distortedUv.1 ∧
    (imageFragmentData uTexture uDisplacement p vUv vScreenUv).distortedUv.1 ≤ 0.999 ∧
    0.001 ≤ (imageFragmentData uTexture uDisplacement p vUv vScreenUv).distortedUv.2 ∧
    (imageFragmentData uTexture uDisplacement p vUv vScreenUv).distortedUv.2 ≤ 0.999 := by
  simp only [imageFragmentData]
  exact ⟨le_clampF _ _ _ (by norm_num), clampF_le _ _ _,
    le_clampF _ _ _ (by norm_num), clampF_le _ _ _⟩

/-- C5 counterexample: a concrete fragment (displacement slope chosen so
the normal is `(2/3, 2/3, 1/3)`, aberration 1) whose red-channel sample
x-coordinate `distortedUv.x + aberrationAmount` exceeds 0.999: the
aberration offsets are applied after the clamp and leave the texture. -/
theorem c5_counterexample :
    0.999 < (imageFragmentData (fun _ => (0, 0, 0))
        (fun q => -(256/25) * (q.1 + q.2)) ⟨0, 1, 0, 8, (512, 512), 1, 1⟩
        (1/2, 1/2) (1/2, 1/2)).distortedUv.1 +
      (imageFragmentData (fun _ => (0, 0, 0))
        (fun q => -(256/25) * (q.1 + q.2)) ⟨0, 1, 0, 8, (512, 512), 1, 1⟩
        (1/2, 1/2) (1/2, 1/2)).aberrationAmount := by
  have h9 : Real.sqrt 9 = 3 := by
    rw [show (9 : ℝ) = 3 ^ 2 by norm_num]
    exact Real.sqrt_sq (by norm_num)
  have hn : calculateNormal (fun q => -(256/25) * (q.1 + q.2)) (512, 512)
      (1/2, 1/2) 50 = (2/3, 2/3, 1/3) := by
    simp only [calculateNormal, normalize3, length3]
    norm_num [Prod.ext_iff, h9]
  have habs : |(2 : ℝ)/3| = 2/3 := abs_of_pos (by norm_num)
  simp only [imageFragmentData, hn]
  norm_num [coverUv, clampF, min_def, max_def, habs]

/-- C7 (amended): on a flat (zero-gradient) displacement field the normal
is `(0,0,1)`, the ripple mask is 0, the specular and fresnel terms are 0,
and the composited colour is the plain refracted/aberrated sample, which
here is the texture sample at the cover-fit UV clamped into
`[0.001, 0.999]` componentwise (equal to the undistorted sample whenever
the cover-fit UV already lies in that range). -/
theorem c7_flat_field (uTexture : ℝ × ℝ → ℝ × ℝ × ℝ) (uDisplacement : ℝ × ℝ → ℝ)
    (p : ImageParams) (vUv vScreenUv : ℝ × ℝ) (c : ℝ)
    (hflat : ∀ q, uDisplacement q = c) :
    (imageFragmentData uTexture uDisplacement p vUv vScreenUv).rippleMask = 0 ∧
    (imageFragmentData uTexture uDisplacement p vUv vScreenUv).specular = 0 ∧
    (imageFragmentData uTexture uDisplacement p vUv vScreenUv).fresnel = 0 ∧
    imageFragmentShader uTexture uDisplacement p vUv vScreenUv =
      ((uTexture (clampF (coverUv vUv p.imageAspect p.planeAspect).1 0.001 0.999,
          clampF (coverUv vUv p.imageAspect p.planeAspect).2 0.001 0.999)).1,
       (uTexture (clampF (coverUv vUv p.imageAspect p.planeAspect).1 0.001 0.999,
          clampF (coverUv vUv p.imageAspect p.planeAspect).2 0.001 0.999)).2.1,
       (uTexture (clampF (coverUv vUv p.imageAspect p.planeAspect).1 0.001 0.999,
          clampF (coverUv vUv p.imageAspect p.planeAspect).2 0.001 0.999)).2.2) := by
  have hN := calculateNormal_const c p.resolution vScreenUv 50 hflat
  have hmax1 : max (1 : ℝ) 0 = 1 := max_eq_left (by norm_num)
  simp only [imageFragmentData, imageFragmentShader, hN, length2, dot3]
  norm_num [smoothstep_at_zero, hmax1, Real.sqrt_zero]

/-- C7 witness: the flat-field conclusions at a concrete texture,
a concrete constant displacement field 3/7 and concrete parameters. -/
theorem c7_flat_field_witness :
    (imageFragmentData (fun q => (q.1, q.2, q.1 + q.2)) (fun _ => 3/7)
        ⟨1/10, 1/20, 1, 8, (512, 512), 2, 1⟩ (1/4, 3/4) (1/2, 1/2)).rippleMask = 0 ∧
    (imageFragmentData (fun q => (q.1, q.2, q.1 + q.2)) (fun _ => 3/7)
        ⟨1/10, 1/20, 1, 8, (512, 512), 2, 1⟩ (1/4, 3/4) (1/2, 1/2)).specular = 0 ∧
    (imageFragmentData (fun q => (q.1, q.2, q.1 + q.2)) (fun _ => 3/7)
        ⟨1/10, 1/20, 1, 8, (512, 512), 2, 1⟩ (1/4, 3/4) (1/2, 1/2)).fresnel = 0 ∧
    imageFragmentShader (fun q => (q.1, q.2, q.1 + q.2)) (fun _ => 3/7)
        ⟨1/10, 1/20, 1, 8, (512, 512), 2, 1⟩ (1/4, 3/4) (1/2, 1/2) =
      (clampF (coverUv (1/4, 3/4) 2 1).1 0.001 0.999,
       clampF (coverUv (1/4, 3/4) 2 1).2 0.001 0.999,
       clampF (coverUv (1/4, 3/4) 2 1).1 0.001 0.999
         + clampF (coverUv (1/4, 3/4) 2 1).2 0.001 0.999) :=
  c7_flat_field (fun q => (q.1, q.2, q.1 + q.2)) (fun _ => 3/7)
    ⟨1/10, 1/20, 1, 8, (512, 512), 2, 1⟩ (1/4, 3/4) (1/2, 1/2) (3/7) (fun _ => rfl)

/-- C7 counterexample: with a uniformly-zero displacement field, a boundary
fragment (`vUv = (0,0)`, equal aspects) composites to the texture value at
the clamped UV `(0.001, 0.001)`, which differs from the undistorted texture
sample at the cover-fit UV `(0,0)` for a texture that distinguishes the two
points: the final claimed equality fails at the texture border. -/
theorem c7_counterexample :
    imageFragmentShader (fun q => if q.1 < 0.001 then ((0 : ℝ), (0 : ℝ), (0 : ℝ)) else (1, 1, 1))
        (fun _ => 0) ⟨1/10, 1/20, 1, 8, (512, 512), 1, 1⟩ (0, 0) (1/2, 1/2) = (1, 1, 1) ∧
    (fun q : ℝ × ℝ => if q.1 < 0.001 then ((0 : ℝ), (0 : ℝ), (0 : ℝ)) else (1, 1, 1))
        (coverUv (0, 0) 1 1) = (0, 0, 0) := by
  have hN := calculateNormal_const 0 ((512 : ℝ), (512 : ℝ)) (1/2, 1/2) 50
    (fun _ => rfl)
  have hmax1 : max (1 : ℝ) 0 = 1 := max_eq_left (by norm_num)
  have hcov : coverUv ((0 : ℝ), (0 : ℝ)) 1 1 = (0, 0) := by norm_num [coverUv]
  have hclamp : clampF 0 (1/1000) (999/1000) = 1/1000 := by
    unfold clampF
    rw [max_eq_right (by norm_num : (0 : ℝ) ≤ 1/1000),
      min_eq_left (by norm_num : (1/1000 : ℝ) ≤ 999/1000)]
  constructor
  · simp only [imageFragmentShader, imageFragmentData, hN, length2, dot3, hcov]
    norm_num [smoothstep_at_zero, hmax1, hclamp, Real.sqrt_zero]
  · rw [hcov]
    norm_num

end RippleEffect
